import Mathlib

/-!
Verification of the assignment status / solution generation lifecycle of the
Assignment-solver repository, together with its client-side error-handling,
API-client, monitoring-singleton and query-building code.

The development shallowly embeds the relevant TypeScript sources:
  * `lib/errorHandling` (`getErrorInfo`, `isRetryableError`, `getRetryDelay`)
  * the React Query retry predicates of `useAssignment`, `useAssignments`,
    `useAssignmentSolution` and the app-wide `QueryProvider` default
  * `APIClient.request` and the query-string construction of
    `APIClient.getAssignments` (`lib/api`)
  * the `sortOptions` of `SearchAndFilter`
  * the singleton `getInstance` methods of `lib/monitoring`
  * the fixed-interval poll loop of the assignment detail page
    (`handleSolveAssignment` / `handleRegenerateSolution`)
  * the server-side Job Dispatcher, which is not part of the sources and is
    therefore modelled from the specification.

JS numbers appearing here are small integers (HTTP statuses, counters) and are
modelled as `Nat`; the retry-delay computation, which involves `Math.random`
and fractional arithmetic, is modelled over `ℚ` with the random draw an
explicit parameter.
-/

namespace AssignmentSolver

/-- Lifecycle status of an Assignment, as in `types/index.ts`:
`'pending' | 'processing' | 'completed' | 'failed'`. -/
inductive AssignmentStatus where
  | pending
  | processing
  | completed
  | failed
deriving DecidableEq, Repr

/-- The `APIError` class of `lib/api`: `message`, HTTP `status`,
optional `code`, optional `details`.  `details : any` is modelled as an
optional string, which is enough for the code below (it is never inspected). -/
structure APIError where
  message : String
  status : Nat
  code : Option String := none
  details : Option String := none
deriving DecidableEq, Repr

/-- The `ErrorInfo` interface of `lib/errorHandling`. -/
structure ErrorInfo where
  title : String
  message : String
  action : Option String := none
  retryable : Bool
deriving DecidableEq, Repr

/-- A JavaScript `unknown` error value as discriminated by
`instanceof` checks in `getErrorInfo`: an `APIError`, some other `Error`
(only its `message` is read), or a non-`Error` value. -/
inductive JSError where
  | api (e : APIError)
  | err (message : String)
  | other
deriving DecidableEq, Repr

/-- JavaScript `a || b` on strings: the empty string is falsy. -/
def jsOrString (a b : String) : String :=
  if a = "" then b else a

/-- Embedding of `getErrorInfo` from `lib/errorHandling`: the `switch` on
`error.status` for `APIError`s, then the `instanceof Error` fallback, then the
unknown-value fallback. -/
def getErrorInfo : JSError → ErrorInfo
  | .api e =>
    if e.status = 400 then
      { title := "Invalid Request"
        message := jsOrString e.message
          "The request contains invalid data. Please check your input and try again."
        retryable := false }
    else if e.status = 401 then
      { title := "Authentication Required"
        message := "Please sign in to continue."
        action := some "Sign In"
        retryable := false }
    else if e.status = 403 then
      { title := "Access Denied"
        message := "You don\x27t have permission to perform this action."
        retryable := false }
    else if e.status = 404 then
      { title := "Not Found"
        message := "The requested resource could not be found."
        retryable := false }
    else if e.status = 409 then
      { title := "Conflict"
        message := jsOrString e.message
          "There was a conflict with the current state. Please refresh and try again."
        retryable := true }
    else if e.status = 413 then
      { title := "File Too Large"
        message := "The uploaded file is too large. Please choose a smaller file."
        retryable := false }
    else if e.status = 422 then
      { title := "Validation Error"
        message := jsOrString e.message
          "The provided data is invalid. Please check your input."
        retryable := false }
    else if e.status = 429 then
      { title := "Too Many Requests"
        message := "You\x27re making requests too quickly. Please wait a moment and try again."
        retryable := true }
    else if e.status = 500 then
      { title := "Server Error"
        message := "An internal server error occurred. Please try again later."
        retryable := true }
    else if e.status = 502 ∨ e.status = 503 ∨ e.status = 504 then
      { title := "Service Unavailable"
        message := "The service is temporarily unavailable. Please try again in a few minutes."
        retryable := true }
    else if e.status = 0 then
      { title := "Network Error"
        message := "Unable to connect to the server. Please check your internet connection."
        retryable := true }
    else
      { title := "Unexpected Error"
        message := jsOrString e.message
          "An unexpected error occurred. Please try again."
        retryable := true }
  | .err message =>
      { title := "Error", message := message, retryable := true }
  | .other =>
      { title := "Unknown Error"
        message := "An unknown error occurred. Please try again."
        retryable := true }

/-- Embedding of `isRetryableError` from `lib/errorHandling`. -/
def isRetryableError (e : JSError) : Bool :=
  (getErrorInfo e).retryable

/-- The `retry` predicate of the `useAssignment` hook: never retry a 404 or
any other 4xx `APIError`; otherwise retry while `failureCount < 3`. -/
def useAssignmentRetry (failureCount : Nat) (e : JSError) : Bool :=
  match e with
  | .api a =>
    if a.status = 404 then false
    else if 400 ≤ a.status ∧ a.status < 500 then false
    else failureCount < 3
  | _ => failureCount < 3

/-- The `retry` predicate of the `useAssignments` hook: never retry a 4xx
`APIError`; otherwise retry while `failureCount < 3`. -/
def useAssignmentsRetry (failureCount : Nat) (e : JSError) : Bool :=
  match e with
  | .api a =>
    if 400 ≤ a.status ∧ a.status < 500 then false
    else failureCount < 3
  | _ => failureCount < 3

/-- The `retry` predicate of the `useAssignmentSolution` hook (the variant
that tests `'status' in error` rather than `instanceof`; for the values of
`JSError` only `APIError`s carry a status, so the two variants coincide
here): never retry a 404 or other 4xx; otherwise retry while
`failureCount < 3`. -/
def useAssignmentSolutionRetry (failureCount : Nat) (e : JSError) : Bool :=
  match e with
  | .api a =>
    if a.status = 404 ∨ (400 ≤ a.status ∧ a.status < 500) then false
    else failureCount < 3
  | _ => failureCount < 3

/-- The app-wide default query `retry` predicate installed by
`QueryProvider`: refuse when `isRetryableError` is false or after 3 failures,
otherwise retry. -/
def defaultQueryRetry (failureCount : Nat) (e : JSError) : Bool :=
  if ¬ isRetryableError e then false
  else if 3 ≤ failureCount then false
  else true

/-- The base-delay part of `getRetryDelay`:
`Math.min(baseDelay * Math.pow(2, attemptNumber), maxDelay)` with
`baseDelay = 1000` and `maxDelay = 30000`, over `ℚ`. -/
def retryBaseDelay (attemptNumber : Nat) : ℚ :=
  min (1000 * 2 ^ attemptNumber) 30000

/-- Embedding of `getRetryDelay` from `lib/errorHandling` over `ℚ`, with the
`Math.random()` draw an explicit parameter `r`:
`delay + Math.random() * 0.1 * delay`. -/
def getRetryDelay (attemptNumber : Nat) (r : ℚ) : ℚ :=
  retryBaseDelay attemptNumber + r * (1 / 10) * retryBaseDelay attemptNumber

/-! ### The API client (`lib/api`): `APIClient.request` -/

/-- The `ErrorResponse` shape read from a non-ok response body in
`APIClient.request`: `error_code`, `message`, optional `details`
(the unused `timestamp` is dropped). -/
structure ErrorBody where
  error_code : String
  message : String
  details : Option String := none
deriving DecidableEq, Repr

/-- A value thrown inside the `try` block of `APIClient.request`,
as discriminated by its `catch`: an `APIError`, some other `Error`
(only its `message` is read), or a non-`Error` value. -/
inductive JSException where
  | apiErr (e : APIError)
  | err (message : String)
  | other
deriving DecidableEq, Repr

/-- An HTTP response as consumed by `APIClient.request`.  `errBody` is what
`response.json()` yields on the non-ok path (`none` when parsing throws);
`dataBody` is what it yields on the ok path (`.error msg` when parsing throws
an `Error` with that message). -/
structure HTTPResponse (α : Type) where
  ok : Bool
  status : Nat
  statusText : String
  errBody : Option ErrorBody
  dataBody : Except String α
deriving Repr

/-- The outcome of `fetch(url, config)`: either the promise rejects with a
thrown value, or it resolves to a response. -/
inductive FetchOutcome (α : Type) where
  | throws (ex : JSException)
  | response (r : HTTPResponse α)
deriving Repr

/-- A successful return of `APIClient.request`: the `{}` returned for a 204
response, or the parsed JSON data. -/
inductive RequestSuccess (α : Type) where
  | emptyObject
  | data (v : α)
deriving DecidableEq, Repr

/-- The `try` block of `APIClient.request`: throw an `APIError` built from the
body (or the `HTTP <status>: <statusText>` fallback) on a non-ok response,
return `{}` on 204, otherwise parse the body, whose failure throws a plain
`Error`. -/
def requestTry {α : Type} : FetchOutcome α → Except JSException (RequestSuccess α)
  | .throws ex => .error ex
  | .response r =>
    if r.ok = false then
      let errorData : ErrorBody :=
        match r.errBody with
        | some b => b
        | none =>
          { error_code := "UNKNOWN_ERROR"
            message := "HTTP " ++ toString r.status ++ ": " ++ r.statusText }
      .error (.apiErr
        { message := errorData.message
          status := r.status
          code := some errorData.error_code
          details := errorData.details })
    else if r.status = 204 then
      .ok .emptyObject
    else
      match r.dataBody with
      | .ok v => .ok (.data v)
      | .error msg => .error (.err msg)

/-- Embedding of `APIClient.request`: the `try` block above followed by the
`catch` that rethrows `APIError`s and wraps anything else in
`new APIError(message-or-fallback, 0, 'NETWORK_ERROR')`.  The error component
is kept as a `JSException` so that "callers only ever see `APIError`s" is a
provable property rather than a typing artefact. -/
def request {α : Type} (o : FetchOutcome α) : Except JSException (RequestSuccess α) :=
  match requestTry o with
  | .ok v => .ok v
  | .error (.apiErr e) => .error (.apiErr e)
  | .error (.err msg) =>
      .error (.apiErr { message := msg, status := 0, code := some "NETWORK_ERROR" })
  | .error .other =>
      .error (.apiErr
        { message := "Network error occurred", status := 0, code := some "NETWORK_ERROR" })

/-! ### Query-string construction of `APIClient.getAssignments` and the
sort keys of `SearchAndFilter` -/

/-- The optional parameter object of `APIClient.getAssignments`. -/
structure AssignmentListParams where
  page : Option Nat := none
  limit : Option Nat := none
  search : Option String := none
  subject : Option String := none
  sort : Option String := none
deriving DecidableEq, Repr

/-- One `if (params?.x) searchParams.append(key, x.toString())` step for a
numeric parameter; the JS number `0` is falsy and appends nothing. -/
def appendNatParam (key : String) : Option Nat → List (String × String)
  | some n => if n = 0 then [] else [(key, toString n)]
  | none => []

/-- One `if (params?.x) searchParams.append(key, x)` step for a string
parameter; the empty JS string is falsy and appends nothing. -/
def appendStrParam (key : String) : Option String → List (String × String)
  | some s => if s = "" then [] else [(key, s)]
  | none => []

/-- The query parameters accumulated by `APIClient.getAssignments` into its
`URLSearchParams`, in appending order. -/
def getAssignmentsQuery (p : AssignmentListParams) : List (String × String) :=
  appendNatParam "page" p.page ++ appendNatParam "limit" p.limit ++
    appendStrParam "search" p.search ++ appendStrParam "subject" p.subject ++
    appendStrParam "sort" p.sort

/-- The `sortOptions` array of `SearchAndFilter` as `(value, label)` pairs. -/
def sortOptions : List (String × String) :=
  [("upload_date", "Upload Date (Newest)"),
   ("upload_date_asc", "Upload Date (Oldest)"),
   ("title", "Title (A-Z)"),
   ("title_desc", "Title (Z-A)"),
   ("subject", "Subject"),
   ("due_date", "Due Date")]

/-! ### Monitoring singletons (`lib/monitoring`)

Each of `ErrorTracker`, `PerformanceMonitor` and `APIMonitor` keeps a
`private static instance` field and a `getInstance` that allocates on first
use.  JavaScript reference identity is modelled by tagging each `new` with a
fresh number drawn from an allocation counter held in the module state. -/

/-- Module-level mutable state of `lib/monitoring`: the three static
`instance` fields (`none` while unset, `some ref` once constructed) and the
allocation counter producing fresh object references. -/
structure TrackerModule where
  errorTrackerInstance : Option Nat := none
  performanceMonitorInstance : Option Nat := none
  apiMonitorInstance : Option Nat := none
  nextRef : Nat := 0
deriving DecidableEq, Repr

/-- Embedding of `ErrorTracker.getInstance`: construct and memoise on first
call, return the memoised reference afterwards. -/
def errorTrackerGetInstance (m : TrackerModule) : Nat × TrackerModule :=
  match m.errorTrackerInstance with
  | some ref => (ref, m)
  | none =>
      (m.nextRef, { m with errorTrackerInstance := some m.nextRef, nextRef := m.nextRef + 1 })

/-- Embedding of `PerformanceMonitor.getInstance`. -/
def performanceMonitorGetInstance (m : TrackerModule) : Nat × TrackerModule :=
  match m.performanceMonitorInstance with
  | some ref => (ref, m)
  | none =>
      (m.nextRef, { m with performanceMonitorInstance := some m.nextRef, nextRef := m.nextRef + 1 })

/-- Embedding of `APIMonitor.getInstance`. -/
def apiMonitorGetInstance (m : TrackerModule) : Nat × TrackerModule :=
  match m.apiMonitorInstance with
  | some ref => (ref, m)
  | none =>
      (m.nextRef, { m with apiMonitorInstance := some m.nextRef, nextRef := m.nextRef + 1 })

/-! ### The Status Poller

`handleSolveAssignment` and `handleRegenerateSolution` in the assignment
detail page install the same loop after a successful dispatch call:
`setInterval(..., 5000)` whose callback fetches the assignment and
  * on a fetch error, logs and `clearInterval`s (the loop stops);
  * on `completed`, fetches the solution; if that succeeds it
    `clearInterval`s, if it throws it only logs (the loop continues);
  * on `failed`, `clearInterval`s;
  * otherwise keeps polling;
and `setTimeout(() => clearInterval(pollInterval), 300000)` bounds the run.
The loop is embedded as a function of the stream of per-tick fetch
observations. -/

/-- What one poll tick observes: the `getAssignment` call throws, or returns
an assignment with the given status; `solutionFetchOk` records whether the
`getSolution` call of that tick would succeed (it is consulted only when the
observed status is `completed`). -/
inductive TickObs where
  | assignmentErr
  | assignment (st : AssignmentStatus) (solutionFetchOk : Bool)
deriving DecidableEq, Repr

/-- What the interval callback does on one tick. -/
inductive TickResult where
  | stopSolved
  | stopFailed
  | stopError
  | keepPolling
deriving DecidableEq, Repr

/-- The body of the `setInterval` callback, as a function of the tick's
observation. -/
def pollTick : TickObs → TickResult
  | .assignmentErr => .stopError
  | .assignment st solutionFetchOk =>
    if st = .completed then
      if solutionFetchOk then .stopSolved else .keepPolling
    else if st = .failed then .stopFailed
    else .keepPolling

/-- Whether the tick performs a `getSolution` fetch: exactly the ticks whose
assignment fetch succeeded with status `completed`. -/
def tickSolutionFetches : TickObs → Nat
  | .assignment .completed _ => 1
  | _ => 0

/-- How a finished poll run ended. -/
inductive PollOutcome where
  | solved
  | failedStatus
  | erroredStop
  | timedOut
deriving DecidableEq, Repr

/-- Summary of a poll run: how it ended, how many assignment fetches (ticks)
ran, and how many solution fetches were performed. -/
structure PollRun where
  outcome : PollOutcome
  ticks : Nat
  solutionFetches : Nat
deriving DecidableEq, Repr

/-- The poll interval in milliseconds (`setInterval(..., 5000)`). -/
def pollIntervalMs : Nat := 5000

/-- The poll budget in milliseconds
(`setTimeout(() => clearInterval(pollInterval), 300000)`). -/
def pollBudgetMs : Nat := 300000

/-- The number of interval ticks the budget admits. -/
def maxPollTicks : Nat := pollBudgetMs / pollIntervalMs

/-- Run the interval callback on observations `obs k, obs (k+1), ...` with
`fuel` ticks left before the budget timeout clears the interval. -/
def runPollAux (obs : Nat → TickObs) (k : Nat) : Nat → PollRun
  | 0 => { outcome := .timedOut, ticks := 0, solutionFetches := 0 }
  | fuel + 1 =>
    match pollTick (obs k) with
    | .keepPolling =>
      let r := runPollAux obs (k + 1) fuel
      { r with ticks := r.ticks + 1
               solutionFetches := r.solutionFetches + tickSolutionFetches (obs k) }
    | .stopSolved =>
      { outcome := .solved, ticks := 1, solutionFetches := tickSolutionFetches (obs k) }
    | .stopFailed =>
      { outcome := .failedStatus, ticks := 1, solutionFetches := tickSolutionFetches (obs k) }
    | .stopError =>
      { outcome := .erroredStop, ticks := 1, solutionFetches := tickSolutionFetches (obs k) }

/-- A full poll run as installed after a dispatch acknowledgement. -/
def runPoll (obs : Nat → TickObs) : PollRun :=
  runPollAux obs 0 maxPollTicks

/-! ### The Job Dispatcher and Record Store lifecycle

The REST API server and its subprocess worker are not part of the sources in
this repository snapshot (only the agent README and the clients are), so the
operations below are modelled from the specification, §3–§5. -/

/-- Modelled from the spec: a Solution record; of its content fields only the
primary solution text matters to the lifecycle, the rest are omitted. -/
structure SolutionRecord where
  content : String
deriving DecidableEq, Repr

/-- Modelled from the spec: the lifecycle-relevant view of a stored
Assignment — its owner, its status, and its zero-or-one associated Solution
(the 1:1 ownership makes `Option` the faithful shape). -/
structure SrvAssignment where
  owner : Nat
  status : AssignmentStatus
  solution : Option SolutionRecord
deriving DecidableEq, Repr

/-- Modelled from the spec: the error taxonomy of the Job Dispatcher
operations (`NotFound`, `Conflict`). -/
inductive DispatchError where
  | notFound
  | conflict
deriving DecidableEq, Repr

/-- Modelled from the spec: the 202-style acknowledgement a dispatch
operation returns immediately — the assignment id and its new status, not the
eventual solution. -/
structure SolveAck where
  assignment_id : Nat
  status : AssignmentStatus
deriving DecidableEq, Repr

/-- Modelled from the spec: `solve(assignmentId, ownerId)` on an existing
record — `NotFound` unless the record is owned by `ownerId`, `Conflict` if
already `processing`, otherwise persist status `processing` and acknowledge.
Returns the (possibly updated) record together with the result. -/
def solve (assignmentId ownerId : Nat) (a : SrvAssignment) :
    SrvAssignment × Except DispatchError SolveAck :=
  if a.owner ≠ ownerId then (a, .error .notFound)
  else if a.status = .processing then (a, .error .conflict)
  else ({ a with status := .processing }, .ok ⟨assignmentId, .processing⟩)

/-- Modelled from the spec: `regenerate(assignmentId, ownerId)` — as `solve`,
but it deletes the existing Solution (failing with `NotFound` when there is
none) before resetting status to `processing`. -/
def regenerate (assignmentId ownerId : Nat) (a : SrvAssignment) :
    SrvAssignment × Except DispatchError SolveAck :=
  if a.owner ≠ ownerId then (a, .error .notFound)
  else if a.status = .processing then (a, .error .conflict)
  else
    match a.solution with
    | none => (a, .error .notFound)
    | some _ =>
      ({ a with status := .processing, solution := none }, .ok ⟨assignmentId, .processing⟩)

/-- Modelled from the spec: `resetStuck(assignmentId, ownerId)` — forces
`processing` back to `pending` without touching any Solution; idempotent when
already `pending`; it only succeeds from `processing` (or trivially from
`pending`), so any other status is an invalid-transition `Conflict`. -/
def resetStuck (assignmentId ownerId : Nat) (a : SrvAssignment) :
    SrvAssignment × Except DispatchError SolveAck :=
  if a.owner ≠ ownerId then (a, .error .notFound)
  else if a.status = .processing then
    ({ a with status := .pending }, .ok ⟨assignmentId, .pending⟩)
  else if a.status = .pending then (a, .ok ⟨assignmentId, .pending⟩)
  else (a, .error .conflict)

/-- Modelled from the spec: the asynchronous completion write on invoker
success — atomically persist the new Solution and set status `completed`. -/
def completeSuccess (sol : SolutionRecord) (a : SrvAssignment) : SrvAssignment :=
  { a with status := .completed, solution := some sol }

/-- Modelled from the spec: the asynchronous completion write on invoker
failure — set status `failed` without creating a Solution; the spec's
atomicity requirement (a reader must never observe `failed` with a stale
Solution from a prior generation) makes this write also clear any stale
Solution. -/
def completeFailure (a : SrvAssignment) : SrvAssignment :=
  { a with status := .failed, solution := none }

/-- The operations of the lifecycle, for quantifying over "every
operation". -/
inductive DispatchOp where
  | solveOp (assignmentId ownerId : Nat)
  | regenerateOp (assignmentId ownerId : Nat)
  | resetStuckOp (assignmentId ownerId : Nat)
  | completeSuccessOp (sol : SolutionRecord)
  | completeFailureOp
deriving DecidableEq, Repr

/-- The state transformation of one operation (operations that fail leave the
record unchanged, as their definitions return it untouched). -/
def applyOp : DispatchOp → SrvAssignment → SrvAssignment
  | .solveOp aid uid, a => (solve aid uid a).1
  | .regenerateOp aid uid, a => (regenerate aid uid a).1
  | .resetStuckOp aid uid, a => (resetStuck aid uid a).1
  | .completeSuccessOp sol, a => completeSuccess sol a
  | .completeFailureOp, a => completeFailure a

/-- The claimed invariant: `status == completed` iff a Solution exists, and
`pending`/`failed` imply no Solution ("at most one Solution" is carried by
the `Option` shape of the record). -/
def StrictInv (a : SrvAssignment) : Prop :=
  (a.status = .completed ↔ a.solution.isSome) ∧
    ((a.status = .pending ∨ a.status = .failed) → a.solution = none)

instance (a : SrvAssignment) : Decidable (StrictInv a) := by
  unfold StrictInv; infer_instance

/-- The §3 form of the invariant, which leaves a `processing` Assignment
unconstrained: `completed` implies a Solution exists, `pending`/`failed`
imply none. -/
def WeakInv (a : SrvAssignment) : Prop :=
  (a.status = .completed → a.solution.isSome) ∧
    ((a.status = .pending ∨ a.status = .failed) → a.solution = none)

instance (a : SrvAssignment) : Decidable (WeakInv a) := by
  unfold WeakInv; infer_instance

/-- A parameter object whose `page` and `search` are provided but falsy. -/
def falsyProvidedParams : AssignmentListParams :=
  { page := some 0, search := some "" }

/-- A concrete fetch outcome: a 500 response whose body cannot be parsed. -/
def unparseable500 : FetchOutcome Nat :=
  .response ⟨false, 500, "Internal Server Error", none, .error "missing body"⟩

/-- An observation stream in which the first tick sees status `completed`
but the `getSolution` call of that tick fails, while every later tick sees
`completed` with a succeeding `getSolution`. -/
def completedButSolutionFetchFlaky : Nat → TickObs := fun k =>
  if k = 0 then .assignment .completed false else .assignment .completed true

/-- An observation stream in which the first tick's `getAssignment` call
throws and every later tick would see `completed` with a succeeding
`getSolution`. -/
def errorThenCompleted : Nat → TickObs := fun k =>
  if k = 0 then .assignmentErr else .assignment .completed true

/-! ## Theorems -/

/-- C1 counterexample: the completed-iff-Solution invariant is not preserved
by every operation.  `solve` is legal on a `completed` Assignment (only
`processing` conflicts) and leaves its Solution in place, so immediately
afterwards the Assignment is `processing` while a Solution exists — the
biconditional is broken; `resetStuck` on that state then yields `pending`
with a Solution, breaking even the weaker `pending → no Solution`
direction. -/
theorem C1_invariant_not_preserved :
    StrictInv { owner := 7, status := .completed, solution := some { content := "x = 2, x = 3" } } ∧
    ¬ StrictInv (applyOp (.solveOp 1 7)
        { owner := 7, status := .completed, solution := some { content := "x = 2, x = 3" } }) ∧
    WeakInv (applyOp (.solveOp 1 7)
        { owner := 7, status := .completed, solution := some { content := "x = 2, x = 3" } }) ∧
    ¬ WeakInv (applyOp (.resetStuckOp 1 7) (applyOp (.solveOp 1 7)
        { owner := 7, status := .completed, solution := some { content := "x = 2, x = 3" } })) := by
  decide

/-- C1 as amended: the invariant weakened at `processing` (as §3 states it:
`completed` implies a Solution exists, `pending`/`failed` imply none, at most
one Solution ever) is preserved by `solve`, `regenerate` and both
asynchronous completion writes from any state satisfying it, and by
`resetStuck` provided the `processing` Assignment holds no stale Solution —
a proviso violated only after `solve` on a `completed` Assignment. -/
theorem C1_amended_weak_invariant_preserved (op : DispatchOp) (a : SrvAssignment)
    (hInv : WeakInv a)
    (hReset : ∀ aid uid, op = .resetStuckOp aid uid →
      a.status = .processing → a.solution = none) :
    WeakInv (applyOp op a) := by
  cases op with
  | solveOp aid uid =>
    simp only [applyOp, solve]
    split_ifs
    · exact hInv
    · exact hInv
    · simp [WeakInv]
  | regenerateOp aid uid =>
    simp only [applyOp, regenerate]
    split_ifs
    · exact hInv
    · exact hInv
    · cases hs : a.solution with
      | none => exact hInv
      | some s => simp [WeakInv]
  | resetStuckOp aid uid =>
    simp only [applyOp, resetStuck]
    split_ifs with h1 h2 h3
    · exact hInv
    · have hsol : a.solution = none := hReset aid uid rfl h2
      simp [WeakInv, hsol]
    · exact hInv
    · exact hInv
  | completeSuccessOp sol =>
    simp [applyOp, completeSuccess, WeakInv]
  | completeFailureOp =>
    simp [applyOp, completeFailure, WeakInv]

/-- Witness for C1 as amended: `solve` by the owner on a fresh `pending`
Assignment. -/
theorem C1_amended_weak_invariant_preserved_witness :
    WeakInv { owner := 7, status := .pending, solution := none } ∧
    WeakInv (applyOp (.solveOp 1 7) { owner := 7, status := .pending, solution := none }) :=
  ⟨by decide,
    C1_amended_weak_invariant_preserved (.solveOp 1 7)
      { owner := 7, status := .pending, solution := none } (by decide)
      (fun _ _ h => DispatchOp.noConfusion h)⟩

/-- C2 counterexample: `solve` on a `processing` Assignment does not always
yield `Conflict` — when the caller is not the owner the `NotFound` check
comes first, so a non-owner calling `solve` on a `processing` Assignment gets
`NotFound`. -/
theorem C2_nonOwner_processing_notFound :
    (solve 1 8 { owner := 7, status := .processing, solution := none }).2 =
        .error .notFound ∧
    DispatchError.notFound ≠ DispatchError.conflict :=
  ⟨rfl, by decide⟩

/-- C2 as amended: for an Assignment owned by the caller, `solve` on status
`processing` fails with `Conflict` and mutates nothing, and `solve` on any
other status persists status `processing` (owner and Solution untouched) and
returns the acknowledgement — the new status and the assignment id, not the
eventual solution. -/
theorem C2_amended_solve_behaviour (aid uid : Nat) (a : SrvAssignment)
    (hOwn : a.owner = uid) :
    (a.status = .processing →
      (solve aid uid a).2 = .error .conflict ∧ (solve aid uid a).1 = a) ∧
    (a.status ≠ .processing →
      (solve aid uid a).2 = .ok ⟨aid, .processing⟩ ∧
      (solve aid uid a).1.status = .processing ∧
      (solve aid uid a).1.owner = a.owner ∧
      (solve aid uid a).1.solution = a.solution) := by
  constructor
  · intro h
    simp [solve, hOwn, h]
  · intro h
    simp [solve, hOwn, h]

/-- Witness for C2 as amended: the owner solving a `processing` and then a
`pending` Assignment is covered by instantiating at the `processing` one. -/
theorem C2_amended_solve_behaviour_witness :
    ({ owner := 7, status := .processing, solution := none } : SrvAssignment).owner = 7 ∧
    ((({ owner := 7, status := .processing, solution := none } : SrvAssignment).status =
          .processing →
        (solve 1 7 { owner := 7, status := .processing, solution := none }).2 =
            .error .conflict ∧
          (solve 1 7 { owner := 7, status := .processing, solution := none }).1 =
            { owner := 7, status := .processing, solution := none }) ∧
      (({ owner := 7, status := .processing, solution := none } : SrvAssignment).status ≠
          .processing →
        (solve 1 7 { owner := 7, status := .processing, solution := none }).2 =
            .ok ⟨1, .processing⟩ ∧
          (solve 1 7 { owner := 7, status := .processing, solution := none }).1.status =
            .processing ∧
          (solve 1 7 { owner := 7, status := .processing, solution := none }).1.owner =
            ({ owner := 7, status := .processing, solution := none } : SrvAssignment).owner ∧
          (solve 1 7 { owner := 7, status := .processing, solution := none }).1.solution =
            ({ owner := 7, status := .processing,
                solution := none } : SrvAssignment).solution)) :=
  ⟨rfl, C2_amended_solve_behaviour 1 7 { owner := 7, status := .processing, solution := none } rfl⟩

/-- A tick stops the loop as solved exactly when it observed `completed` and
its solution fetch succeeded. -/
theorem pollTick_stopSolved {o : TickObs} (h : pollTick o = .stopSolved) :
    o = .assignment .completed true := by
  cases o with
  | assignmentErr => simp [pollTick] at h
  | assignment st b => cases st <;> cases b <;> simp_all [pollTick]

/-- A tick stops the loop as failed exactly when it observed `failed`. -/
theorem pollTick_stopFailed {o : TickObs} (h : pollTick o = .stopFailed) :
    ∃ b, o = .assignment .failed b := by
  cases o with
  | assignmentErr => simp [pollTick] at h
  | assignment st b => cases st <;> cases b <;> simp_all [pollTick]

/-- Unfolding a poll step whose tick keeps polling. -/
theorem runPollAux_succ_keep (obs : Nat → TickObs) (k f : Nat)
    (h : pollTick (obs k) = .keepPolling) :
    runPollAux obs k (f + 1) =
      { outcome := (runPollAux obs (k + 1) f).outcome
        ticks := (runPollAux obs (k + 1) f).ticks + 1
        solutionFetches :=
          (runPollAux obs (k + 1) f).solutionFetches + tickSolutionFetches (obs k) } := by
  rw [runPollAux, h]

/-- Unfolding a poll step whose tick stops the loop as solved. -/
theorem runPollAux_succ_stopSolved (obs : Nat → TickObs) (k f : Nat)
    (h : pollTick (obs k) = .stopSolved) :
    runPollAux obs k (f + 1) =
      { outcome := .solved, ticks := 1, solutionFetches := tickSolutionFetches (obs k) } := by
  rw [runPollAux, h]

/-- Unfolding a poll step whose tick stops the loop on status `failed`. -/
theorem runPollAux_succ_stopFailed (obs : Nat → TickObs) (k f : Nat)
    (h : pollTick (obs k) = .stopFailed) :
    runPollAux obs k (f + 1) =
      { outcome := .failedStatus, ticks := 1, solutionFetches := tickSolutionFetches (obs k) } := by
  rw [runPollAux, h]

/-- Unfolding a poll step whose tick stops the loop on a fetch error. -/
theorem runPollAux_succ_stopError (obs : Nat → TickObs) (k f : Nat)
    (h : pollTick (obs k) = .stopError) :
    runPollAux obs k (f + 1) =
      { outcome := .erroredStop, ticks := 1, solutionFetches := tickSolutionFetches (obs k) } := by
  rw [runPollAux, h]

/-- Complete characterisation of a bounded poll run starting at tick index
`k` with `fuel` ticks of budget left: it runs at most `fuel` ticks, performs
one solution fetch per `completed` observation, keeps polling on every tick
before the last, ends solved only on a `completed` observation with a
successful solution fetch, ends failed only on a `failed` observation, and
times out only after consuming the whole budget. -/
theorem runPollAux_spec (obs : Nat → TickObs) (fuel : Nat) : ∀ k,
    (runPollAux obs k fuel).ticks ≤ fuel ∧
    (runPollAux obs k fuel).solutionFetches =
      ∑ j ∈ Finset.range (runPollAux obs k fuel).ticks, tickSolutionFetches (obs (k + j)) ∧
    (∀ j, j + 1 < (runPollAux obs k fuel).ticks → pollTick (obs (k + j)) = .keepPolling) ∧
    ((runPollAux obs k fuel).outcome = .solved →
      0 < (runPollAux obs k fuel).ticks ∧
        obs (k + ((runPollAux obs k fuel).ticks - 1)) = .assignment .completed true) ∧
    ((runPollAux obs k fuel).outcome = .failedStatus →
      0 < (runPollAux obs k fuel).ticks ∧
        ∃ b, obs (k + ((runPollAux obs k fuel).ticks - 1)) = .assignment .failed b) ∧
    ((runPollAux obs k fuel).outcome = .timedOut →
      (runPollAux obs k fuel).ticks = fuel) := by
  induction fuel with
  | zero => intro k; simp [runPollAux]
  | succ f ih =>
    intro k
    obtain ⟨iht, ihs, ihk, ihsolved, ihfailed, ihtime⟩ := ih (k + 1)
    cases htick : pollTick (obs k) with
    | keepPolling =>
      rw [runPollAux_succ_keep obs k f htick]
      dsimp only
      refine ⟨by omega, ?_, ?_, ?_, ?_, ?_⟩
      · rw [ihs, Finset.sum_range_succ']
        congr 1
        exact Finset.sum_congr rfl fun x hx =>
          congrArg (fun m => tickSolutionFetches (obs m)) (by omega)
      · intro j hj
        match j with
        | 0 => simpa using htick
        | j' + 1 =>
          have := ihk j' (by omega)
          rwa [show k + 1 + j' = k + (j' + 1) from by omega] at this
      · intro hout
        obtain ⟨hpos, hobs⟩ := ihsolved hout
        refine ⟨by omega, ?_⟩
        rwa [show k + ((runPollAux obs (k + 1) f).ticks + 1 - 1) =
          k + 1 + ((runPollAux obs (k + 1) f).ticks - 1) from by omega]
      · intro hout
        obtain ⟨hpos, hobs⟩ := ihfailed hout
        refine ⟨by omega, ?_⟩
        rw [show k + ((runPollAux obs (k + 1) f).ticks + 1 - 1) =
          k + 1 + ((runPollAux obs (k + 1) f).ticks - 1) from by omega]
        exact hobs
      · intro hout
        have := ihtime hout
        omega
    | stopSolved =>
      rw [runPollAux_succ_stopSolved obs k f htick]
      dsimp only
      refine ⟨by omega, by simp, fun j hj => absurd hj (by omega), ?_, ?_, ?_⟩
      · intro _
        refine ⟨by omega, ?_⟩
        simpa using pollTick_stopSolved htick
      · intro hbad
        exact PollOutcome.noConfusion hbad
      · intro hbad
        exact PollOutcome.noConfusion hbad
    | stopFailed =>
      rw [runPollAux_succ_stopFailed obs k f htick]
      dsimp only
      refine ⟨by omega, by simp, fun j hj => absurd hj (by omega), ?_, ?_, ?_⟩
      · intro hbad
        exact PollOutcome.noConfusion hbad
      · intro _
        refine ⟨by omega, ?_⟩
        simpa using pollTick_stopFailed htick
      · intro hbad
        exact PollOutcome.noConfusion hbad
    | stopError =>
      rw [runPollAux_succ_stopError obs k f htick]
      dsimp only
      refine ⟨by omega, by simp, fun j hj => absurd hj (by omega), ?_, ?_, ?_⟩
      · intro hbad
        exact PollOutcome.noConfusion hbad
      · intro hbad
        exact PollOutcome.noConfusion hbad
      · intro hbad
        exact PollOutcome.noConfusion hbad

/-- C3 counterexample: the poller does not stop on the first `completed`
observation with exactly one solution fetch — when the solution fetch of that
tick fails, the loop keeps running and fetches the solution again, here
twice over two ticks. -/
theorem C3_solution_fetched_twice :
    (runPoll completedButSolutionFetchFlaky).outcome = .solved ∧
    (runPoll completedButSolutionFetchFlaky).ticks = 2 ∧
    (runPoll completedButSolutionFetchFlaky).solutionFetches = 2 := by
  decide

/-- C3 as amended: the poller runs at most 60 ticks of its fixed 5000 ms
interval, so it always stops within the 300000 ms budget; it performs one
solution fetch per `completed` observation (so possibly more than one when a
solution fetch fails); every tick before the stopping one kept polling; it
stops as solved only on a tick that observed `completed` with a successful
solution fetch, as failed only on a tick that observed `failed`, and times
out only after all 60 ticks. -/
theorem C3_amended_poller_bounds (obs : Nat → TickObs) :
    (runPoll obs).ticks ≤ maxPollTicks ∧
    pollIntervalMs * (runPoll obs).ticks ≤ pollBudgetMs ∧
    (runPoll obs).solutionFetches =
      ∑ j ∈ Finset.range (runPoll obs).ticks, tickSolutionFetches (obs j) ∧
    (∀ j, j + 1 < (runPoll obs).ticks → pollTick (obs j) = .keepPolling) ∧
    ((runPoll obs).outcome = .solved → 0 < (runPoll obs).ticks ∧
      obs ((runPoll obs).ticks - 1) = .assignment .completed true) ∧
    ((runPoll obs).outcome = .failedStatus → 0 < (runPoll obs).ticks ∧
      ∃ b, obs ((runPoll obs).ticks - 1) = .assignment .failed b) ∧
    ((runPoll obs).outcome = .timedOut → (runPoll obs).ticks = maxPollTicks) := by
  obtain ⟨ht, hs, hk, hsolved, hfailed, htime⟩ := runPollAux_spec obs maxPollTicks 0
  simp only [Nat.zero_add] at hs hk hsolved hfailed
  refine ⟨ht, ?_, hs, hk, hsolved, hfailed, htime⟩
  have hmul : pollIntervalMs * (runPoll obs).ticks ≤ pollIntervalMs * maxPollTicks :=
    Nat.mul_le_mul_left _ ht
  calc pollIntervalMs * (runPoll obs).ticks ≤ pollIntervalMs * maxPollTicks := hmul
    _ ≤ pollBudgetMs := by norm_num [pollIntervalMs, maxPollTicks, pollBudgetMs]

/-- Witness for C3 as amended at a stream that is forever `pending`. -/
theorem C3_amended_poller_bounds_witness :
    (runPoll fun _ => TickObs.assignment .pending false).ticks ≤ maxPollTicks ∧
    pollIntervalMs * (runPoll fun _ => TickObs.assignment .pending false).ticks ≤
      pollBudgetMs ∧
    (runPoll fun _ => TickObs.assignment .pending false).solutionFetches =
      ∑ j ∈ Finset.range (runPoll fun _ => TickObs.assignment .pending false).ticks,
        tickSolutionFetches ((fun _ => TickObs.assignment .pending false) j) ∧
    (∀ j, j + 1 < (runPoll fun _ => TickObs.assignment .pending false).ticks →
      pollTick ((fun _ => TickObs.assignment .pending false) j) = .keepPolling) ∧
    ((runPoll fun _ => TickObs.assignment .pending false).outcome = .solved →
      0 < (runPoll fun _ => TickObs.assignment .pending false).ticks ∧
      (fun _ => TickObs.assignment .pending false)
          ((runPoll fun _ => TickObs.assignment .pending false).ticks - 1) =
        .assignment .completed true) ∧
    ((runPoll fun _ => TickObs.assignment .pending false).outcome = .failedStatus →
      0 < (runPoll fun _ => TickObs.assignment .pending false).ticks ∧
      ∃ b, (fun _ => TickObs.assignment .pending false)
          ((runPoll fun _ => TickObs.assignment .pending false).ticks - 1) =
        .assignment .failed b) ∧
    ((runPoll fun _ => TickObs.assignment .pending false).outcome = .timedOut →
      (runPoll fun _ => TickObs.assignment .pending false).ticks = maxPollTicks) :=
  C3_amended_poller_bounds fun _ => TickObs.assignment .pending false

/-- C4 counterexample: a tick whose assignment fetch throws terminates the
poller — here the very first tick errors and the run stops after that single
fetch, although the budget had 59 ticks left and the very next tick would
have observed `completed` with a successful solution fetch.  The poller does
not retry on its next scheduled tick. -/
theorem C4_poller_stops_on_fetch_error :
    (runPoll errorThenCompleted).outcome = .erroredStop ∧
    (runPoll errorThenCompleted).ticks = 1 ∧
    pollTick (errorThenCompleted 1) = .stopSolved := by
  decide

/-- A poll run whose first erroring tick is preceded only by keep-polling
ticks stops at that erroring tick. -/
theorem runPollAux_stops_at_error (obs : Nat → TickObs) :
    ∀ (c start fuel : Nat), c < fuel →
      (∀ j, j < c → pollTick (obs (start + j)) = .keepPolling) →
      obs (start + c) = .assignmentErr →
      (runPollAux obs start fuel).outcome = .erroredStop ∧
        (runPollAux obs start fuel).ticks = c + 1 := by
  intro c
  induction c with
  | zero =>
    intro start fuel hc hk herr
    obtain ⟨f, rfl⟩ : ∃ f, fuel = f + 1 := ⟨fuel - 1, by omega⟩
    rw [Nat.add_zero] at herr
    have htick : pollTick (obs start) = .stopError := by rw [herr]; rfl
    rw [runPollAux_succ_stopError obs start f htick]
    exact ⟨rfl, rfl⟩
  | succ c ih =>
    intro start fuel hc hk herr
    obtain ⟨f, rfl⟩ : ∃ f, fuel = f + 1 := ⟨fuel - 1, by omega⟩
    have h0 : pollTick (obs start) = .keepPolling := by
      have := hk 0 (by omega)
      rwa [Nat.add_zero] at this
    have hrest := ih (start + 1) f (by omega)
      (fun j hj => by
        have := hk (j + 1) (by omega)
        rwa [show start + (j + 1) = start + 1 + j from by omega] at this)
      (by rwa [show start + (c + 1) = start + 1 + c from by omega] at herr)
    rw [runPollAux_succ_keep obs start f h0]
    exact ⟨hrest.1, by rw [hrest.2]⟩

/-- C4 as amended: on the first tick whose assignment fetch fails (all
earlier ticks having kept polling), the poller clears its interval and
terminates — the run ends `erroredStop` after exactly that tick; it does not
retry the fetch on a later tick. -/
theorem C4_amended_fetch_error_terminates (obs : Nat → TickObs) (c : Nat)
    (hk : ∀ j, j < c → pollTick (obs j) = .keepPolling)
    (herr : obs c = .assignmentErr)
    (hc : c < maxPollTicks) :
    (runPoll obs).outcome = .erroredStop ∧ (runPoll obs).ticks = c + 1 := by
  have h := runPollAux_stops_at_error obs c 0 maxPollTicks hc
    (fun j hj => by simpa using hk j hj) (by simpa using herr)
  simpa [runPoll] using h

/-- Witness for C4 as amended: a stream whose first tick errors. -/
theorem C4_amended_fetch_error_terminates_witness :
    (runPoll fun _ => TickObs.assignmentErr).outcome = .erroredStop ∧
      (runPoll fun _ => TickObs.assignmentErr).ticks = 0 + 1 :=
  C4_amended_fetch_error_terminates (fun _ => .assignmentErr) 0
    (fun j hj => absurd hj (Nat.not_lt_zero j)) rfl (by decide)

/-- C5: any two `APIError`s with HTTP status 404 — one for a record that does
not exist, one for a record owned by someone else — produce the same
`ErrorInfo` from `getErrorInfo`, namely the fixed "Not Found" rendering,
whatever their messages or details; so the caller cannot distinguish deletion
from access denial. -/
theorem C5_notFound_indistinguishable (e₁ e₂ : APIError)
    (h₁ : e₁.status = 404) (h₂ : e₂.status = 404) :
    getErrorInfo (.api e₁) = getErrorInfo (.api e₂) ∧
      getErrorInfo (.api e₁) =
        { title := "Not Found"
          message := "The requested resource could not be found."
          action := none
          retryable := false } := by
  constructor <;> simp [getErrorInfo, h₁, h₂]

/-- Witness for C5 at two concrete 404 errors with different messages, codes
and details. -/
theorem C5_notFound_indistinguishable_witness :
    getErrorInfo (.api ⟨"assignment 42 was deleted", 404, some "GONE", none⟩) =
      getErrorInfo
        (.api ⟨"assignment 42 belongs to another user", 404, none, some "owner mismatch"⟩) ∧
    getErrorInfo (.api ⟨"assignment 42 was deleted", 404, some "GONE", none⟩) =
      { title := "Not Found"
        message := "The requested resource could not be found."
        action := none
        retryable := false } :=
  C5_notFound_indistinguishable _ _ rfl rfl

/-- C6 counterexample: a 409 Conflict `APIError` is retried by the app-wide
default query retry predicate — `getErrorInfo` marks 409 `retryable`, so
`defaultQueryRetry` (used by every query without its own `retry` option,
e.g. `useSearchAssignments`) returns `true` at the first failure. -/
theorem C6_conflict_retried_by_default :
    defaultQueryRetry 0
        (.api { message := "Assignment is already being processed", status := 409 }) = true := by
  decide

/-- C6 as amended: for an `APIError` with status in `[400, 500)`, the retry
predicates of `useAssignment`, `useAssignments` and `useAssignmentSolution`
refuse to retry at every `failureCount`; the app-wide default predicate
refuses only the statuses `getErrorInfo` marks non-retryable (400, 401, 403,
404, 413, 422) and retries 409 and 429 (and any other 4xx) while
`failureCount < 3`. -/
theorem C6_amended_clientError_retry (n : Nat) (e : APIError)
    (h₁ : 400 ≤ e.status) (h₂ : e.status < 500) :
    useAssignmentRetry n (.api e) = false ∧
    useAssignmentsRetry n (.api e) = false ∧
    useAssignmentSolutionRetry n (.api e) = false ∧
    (e.status = 400 ∨ e.status = 401 ∨ e.status = 403 ∨ e.status = 404 ∨
        e.status = 413 ∨ e.status = 422 →
      defaultQueryRetry n (.api e) = false) ∧
    (e.status = 409 ∨ e.status = 429 →
      defaultQueryRetry n (.api e) = (decide (n < 3))) := by
  refine ⟨?_, ?_, ?_, ?_, ?_⟩
  · by_cases h : e.status = 404 <;> simp [useAssignmentRetry, h, h₁, h₂]
  · simp [useAssignmentsRetry, h₁, h₂]
  · by_cases h : e.status = 404 <;> simp [useAssignmentSolutionRetry, h, h₁, h₂]
  · rintro (h | h | h | h | h | h) <;>
      simp [defaultQueryRetry, isRetryableError, getErrorInfo, h]
  · intro h
    have hret : isRetryableError (.api e) = true := by
      rcases h with h | h <;> simp [isRetryableError, getErrorInfo, h]
    by_cases hn : 3 ≤ n
    · have hlt : ¬ n < 3 := by omega
      simp [defaultQueryRetry, hret, hn, decide_eq_false hlt]
    · have hlt : n < 3 := by omega
      simp [defaultQueryRetry, hret, hn, decide_eq_true hlt]

/-- Witness for C6 at a 422 validation error and `failureCount = 0`. -/
theorem C6_amended_clientError_retry_witness :
    400 ≤ 422 ∧ 422 < 500 ∧
    (useAssignmentRetry 0 (.api { message := "bad title", status := 422 }) = false ∧
     useAssignmentsRetry 0 (.api { message := "bad title", status := 422 }) = false ∧
     useAssignmentSolutionRetry 0 (.api { message := "bad title", status := 422 }) = false ∧
     ((422 : Nat) = 400 ∨ (422 : Nat) = 401 ∨ (422 : Nat) = 403 ∨ (422 : Nat) = 404 ∨
         (422 : Nat) = 413 ∨ (422 : Nat) = 422 →
       defaultQueryRetry 0 (.api { message := "bad title", status := 422 }) = false) ∧
     ((422 : Nat) = 409 ∨ (422 : Nat) = 429 →
       defaultQueryRetry 0 (.api { message := "bad title", status := 422 }) =
         (decide (0 < 3)))) :=
  ⟨by decide, by decide,
    C6_amended_clientError_retry 0 { message := "bad title", status := 422 }
      (by decide) (by decide)⟩

/-- Membership in one numeric `URLSearchParams.append` step. -/
theorem mem_appendNatParam (key : String) (o : Option Nat) (kv : String × String) :
    kv ∈ appendNatParam key o ↔ ∃ n, o = some n ∧ n ≠ 0 ∧ kv = (key, toString n) := by
  cases o with
  | none => simp [appendNatParam]
  | some n => by_cases h : n = 0 <;> simp [appendNatParam, h]

/-- Membership in one string `URLSearchParams.append` step. -/
theorem mem_appendStrParam (key : String) (o : Option String) (kv : String × String) :
    kv ∈ appendStrParam key o ↔ ∃ s, o = some s ∧ s ≠ "" ∧ kv = (key, s) := by
  cases o with
  | none => simp [appendStrParam]
  | some s => by_cases h : s = "" <;> simp [appendStrParam, h]

/-- C7 counterexample: `getAssignments` does not send every provided
parameter — `page` and `search` are provided here (`0` and the empty string)
yet the truthiness guards append nothing, so the request carries no query
parameters at all. -/
theorem C7_providedParamsDropped :
    falsyProvidedParams.page = some 0 ∧ falsyProvidedParams.search = some "" ∧
      getAssignmentsQuery falsyProvidedParams = [] := by
  decide

/-- C7 as amended: the query carries exactly the provided parameters whose
values are truthy — a `page`/`limit` key appears with value `toString n` iff
the field is provided with `n ≠ 0`, and a `search`/`subject`/`sort` key
appears with the provided string iff it is provided non-empty; and the sort
keys offered by `SearchAndFilter` are exactly `upload_date`,
`upload_date_asc`, `title`, `title_desc`, `subject`, `due_date`. -/
theorem C7_amended_listAssignments_query (p : AssignmentListParams) :
    (∀ v, ("page", v) ∈ getAssignmentsQuery p ↔
      ∃ n, p.page = some n ∧ n ≠ 0 ∧ v = toString n) ∧
    (∀ v, ("limit", v) ∈ getAssignmentsQuery p ↔
      ∃ n, p.limit = some n ∧ n ≠ 0 ∧ v = toString n) ∧
    (∀ v, ("search", v) ∈ getAssignmentsQuery p ↔ p.search = some v ∧ v ≠ "") ∧
    (∀ v, ("subject", v) ∈ getAssignmentsQuery p ↔ p.subject = some v ∧ v ≠ "") ∧
    (∀ v, ("sort", v) ∈ getAssignmentsQuery p ↔ p.sort = some v ∧ v ≠ "") ∧
    sortOptions.map Prod.fst =
      ["upload_date", "upload_date_asc", "title", "title_desc", "subject", "due_date"] := by
  refine ⟨?_, ?_, ?_, ?_, ?_, by rfl⟩ <;>
    intro v <;>
      simp only [getAssignmentsQuery, mem_appendNatParam, mem_appendStrParam,
        List.mem_append, Prod.ext_iff, and_comm, eq_comm] <;>
      simp <;>
      (try constructor) <;>
      aesop

/-- Witness for C7 at a fully provided, truthy parameter object. -/
theorem C7_amended_listAssignments_query_witness :
    (∀ v, ("page", v) ∈
        getAssignmentsQuery ⟨some 2, some 12, some "quadratic", some "Mathematics", some "title"⟩ ↔
      ∃ n, (some 2 : Option Nat) = some n ∧ n ≠ 0 ∧ v = toString n) ∧
    (∀ v, ("limit", v) ∈
        getAssignmentsQuery ⟨some 2, some 12, some "quadratic", some "Mathematics", some "title"⟩ ↔
      ∃ n, (some 12 : Option Nat) = some n ∧ n ≠ 0 ∧ v = toString n) ∧
    (∀ v, ("search", v) ∈
        getAssignmentsQuery ⟨some 2, some 12, some "quadratic", some "Mathematics", some "title"⟩ ↔
      (some "quadratic" : Option String) = some v ∧ v ≠ "") ∧
    (∀ v, ("subject", v) ∈
        getAssignmentsQuery ⟨some 2, some 12, some "quadratic", some "Mathematics", some "title"⟩ ↔
      (some "Mathematics" : Option String) = some v ∧ v ≠ "") ∧
    (∀ v, ("sort", v) ∈
        getAssignmentsQuery ⟨some 2, some 12, some "quadratic", some "Mathematics", some "title"⟩ ↔
      (some "title" : Option String) = some v ∧ v ≠ "") ∧
    sortOptions.map Prod.fst =
      ["upload_date", "upload_date_asc", "title", "title_desc", "subject", "due_date"] :=
  C7_amended_listAssignments_query ⟨some 2, some 12, some "quadratic", some "Mathematics", some "title"⟩

/-- C8: every failure of `APIClient.request` reaches the caller as an
`APIError` — a non-ok response yields an `APIError` with that response's
status (with the `HTTP <status>: <statusText>` fallback message when the
error body cannot be parsed), a rejection of `fetch` with a non-`APIError`
yields status 0 and code `NETWORK_ERROR`, a 204 response returns the empty
object, and an unparseable body on an ok response is likewise wrapped with
status 0 and code `NETWORK_ERROR`. -/
theorem C8_request_failures_are_APIErrors {α : Type} (o : FetchOutcome α) :
    (∀ ex, request o = .error ex → ∃ e, ex = .apiErr e) ∧
    (∀ r : HTTPResponse α, o = .response r → r.ok = false →
      ∃ e, request o = .error (.apiErr e) ∧ e.status = r.status ∧
        (r.errBody = none →
          e.message = "HTTP " ++ toString r.status ++ ": " ++ r.statusText)) ∧
    (∀ ex, o = .throws ex → (∀ e, ex ≠ .apiErr e) →
      ∃ e, request o = .error (.apiErr e) ∧ e.status = 0 ∧
        e.code = some "NETWORK_ERROR") ∧
    (∀ r : HTTPResponse α, o = .response r → r.ok = true → r.status = 204 →
      request o = .ok .emptyObject) ∧
    (∀ (r : HTTPResponse α) (msg : String), o = .response r → r.ok = true →
      r.status ≠ 204 → r.dataBody = .error msg →
      request o =
        .error (.apiErr { message := msg, status := 0, code := some "NETWORK_ERROR" })) := by
  refine ⟨?_, ?_, ?_, ?_, ?_⟩
  · intro ex hex
    cases o with
    | throws ex₀ =>
      cases ex₀ <;> simp [request, requestTry] at hex <;> simp [← hex]
    | response r =>
      by_cases hok : r.ok
      · by_cases h204 : r.status = 204
        · simp [request, requestTry, hok, h204] at hex
        · cases hdb : r.dataBody
          all_goals simp [request, requestTry, hok, h204, hdb] at hex
          all_goals simp [← hex]
      · cases hb : r.errBody <;>
          simp [request, requestTry, hok, hb] at hex <;> simp [← hex]
  · rintro r rfl hok
    cases hb : r.errBody with
    | none =>
      refine ⟨{ message := "HTTP " ++ toString r.status ++ ": " ++ r.statusText,
                status := r.status, code := some "UNKNOWN_ERROR", details := none },
        ?_, rfl, fun _ => rfl⟩
      simp [request, requestTry, hok, hb]
    | some b =>
      refine ⟨{ message := b.message, status := r.status, code := some b.error_code,
                details := b.details }, ?_, rfl, ?_⟩
      · simp [request, requestTry, hok, hb]
      · intro hnone
        exact Option.noConfusion hnone
  · rintro ex rfl hne
    cases ex with
    | apiErr e => exact absurd rfl (hne e)
    | err msg =>
      exact ⟨{ message := msg, status := 0, code := some "NETWORK_ERROR", details := none },
        by simp [request, requestTry], rfl, rfl⟩
    | other =>
      exact ⟨{ message := "Network error occurred", status := 0,
               code := some "NETWORK_ERROR", details := none },
        by simp [request, requestTry], rfl, rfl⟩
  · rintro r rfl hok h204
    simp [request, requestTry, hok, h204]
  · rintro r msg rfl hok h204 hdb
    simp [request, requestTry, hok, h204, hdb]

/-- Witness for C8 at the concrete outcome `unparseable500`. -/
theorem C8_request_failures_are_APIErrors_witness :
    (∀ ex, request unparseable500 = .error ex → ∃ e, ex = .apiErr e) ∧
    (∀ r : HTTPResponse Nat, unparseable500 = .response r → r.ok = false →
      ∃ e, request unparseable500 = .error (.apiErr e) ∧ e.status = r.status ∧
        (r.errBody = none →
          e.message = "HTTP " ++ toString r.status ++ ": " ++ r.statusText)) ∧
    (∀ ex, unparseable500 = .throws ex → (∀ e, ex ≠ .apiErr e) →
      ∃ e, request unparseable500 = .error (.apiErr e) ∧ e.status = 0 ∧
        e.code = some "NETWORK_ERROR") ∧
    (∀ r : HTTPResponse Nat, unparseable500 = .response r → r.ok = true → r.status = 204 →
      request unparseable500 = .ok .emptyObject) ∧
    (∀ (r : HTTPResponse Nat) (msg : String), unparseable500 = .response r → r.ok = true →
      r.status ≠ 204 → r.dataBody = .error msg →
      request unparseable500 =
        .error (.apiErr { message := msg, status := 0, code := some "NETWORK_ERROR" })) :=
  C8_request_failures_are_APIErrors unparseable500

/-- C9: each `getInstance` is idempotent — a second call returns the very
reference the first call returned and leaves the module state unchanged, for
each of `ErrorTracker`, `PerformanceMonitor` and `APIMonitor`, from any module
state. -/
theorem C9_getInstance_idempotent (m : TrackerModule) :
    (errorTrackerGetInstance (errorTrackerGetInstance m).2).1 =
        (errorTrackerGetInstance m).1 ∧
    (errorTrackerGetInstance (errorTrackerGetInstance m).2).2 =
        (errorTrackerGetInstance m).2 ∧
    (performanceMonitorGetInstance (performanceMonitorGetInstance m).2).1 =
        (performanceMonitorGetInstance m).1 ∧
    (performanceMonitorGetInstance (performanceMonitorGetInstance m).2).2 =
        (performanceMonitorGetInstance m).2 ∧
    (apiMonitorGetInstance (apiMonitorGetInstance m).2).1 =
        (apiMonitorGetInstance m).1 ∧
    (apiMonitorGetInstance (apiMonitorGetInstance m).2).2 =
        (apiMonitorGetInstance m).2 := by
  obtain ⟨et, pm, am, n⟩ := m
  cases et <;> cases pm <;> cases am <;>
    simp [errorTrackerGetInstance, performanceMonitorGetInstance, apiMonitorGetInstance]

/-- Witness for C9 at the pristine module state. -/
theorem C9_getInstance_idempotent_witness :
    (errorTrackerGetInstance (errorTrackerGetInstance {}).2).1 =
        (errorTrackerGetInstance ({} : TrackerModule)).1 ∧
    (errorTrackerGetInstance (errorTrackerGetInstance {}).2).2 =
        (errorTrackerGetInstance ({} : TrackerModule)).2 ∧
    (performanceMonitorGetInstance (performanceMonitorGetInstance {}).2).1 =
        (performanceMonitorGetInstance ({} : TrackerModule)).1 ∧
    (performanceMonitorGetInstance (performanceMonitorGetInstance {}).2).2 =
        (performanceMonitorGetInstance ({} : TrackerModule)).2 ∧
    (apiMonitorGetInstance (apiMonitorGetInstance {}).2).1 =
        (apiMonitorGetInstance ({} : TrackerModule)).1 ∧
    (apiMonitorGetInstance (apiMonitorGetInstance {}).2).2 =
        (apiMonitorGetInstance ({} : TrackerModule)).2 :=
  C9_getInstance_idempotent {}

/-- C10: for every attempt number `n` and random draw `r ∈ [0, 1)`, the retry
delay lies in `[d, 1.1 * d)` for `d = min(1000 * 2 ^ n, 30000)`; hence it is
at least 1000, strictly below 33000, and the lower bound `d` is non-decreasing
in `n`. -/
theorem C10_getRetryDelay_bounds (n : Nat) (r : ℚ) (h₀ : 0 ≤ r) (h₁ : r < 1) :
    retryBaseDelay n ≤ getRetryDelay n r ∧
    getRetryDelay n r < (11 / 10) * retryBaseDelay n ∧
    (1000 : ℚ) ≤ getRetryDelay n r ∧
    getRetryDelay n r < 33000 ∧
    retryBaseDelay n ≤ retryBaseDelay (n + 1) := by
  have hpow : (1 : ℚ) ≤ 2 ^ n := by
    induction n with
    | zero => norm_num
    | succ k ih => rw [pow_succ]; nlinarith
  have hlow : (1000 : ℚ) ≤ retryBaseDelay n := le_min (by nlinarith) (by norm_num)
  have hhigh : retryBaseDelay n ≤ 30000 := min_le_right _ _
  have hjit : 0 ≤ r * (1 / 10) * retryBaseDelay n := by positivity
  refine ⟨?_, ?_, ?_, ?_, ?_⟩
  · unfold getRetryDelay; nlinarith
  · unfold getRetryDelay; nlinarith
  · unfold getRetryDelay; nlinarith
  · unfold getRetryDelay; nlinarith
  · unfold retryBaseDelay
    refine min_le_min ?_ le_rfl
    rw [pow_succ]; nlinarith

/-- Witness for C10 at `n = 3`, `r = 1 / 2`. -/
theorem C10_getRetryDelay_bounds_witness :
    (0 : ℚ) ≤ 1 / 2 ∧ (1 / 2 : ℚ) < 1 ∧
    (retryBaseDelay 3 ≤ getRetryDelay 3 (1 / 2) ∧
     getRetryDelay 3 (1 / 2) < (11 / 10) * retryBaseDelay 3 ∧
     (1000 : ℚ) ≤ getRetryDelay 3 (1 / 2) ∧
     getRetryDelay 3 (1 / 2) < 33000 ∧
     retryBaseDelay 3 ≤ retryBaseDelay (3 + 1)) :=
  ⟨by norm_num, by norm_num,
    C10_getRetryDelay_bounds 3 (1 / 2) (by norm_num) (by norm_num)⟩

end AssignmentSolver
